import Mathlib

/-!
# Verification of the blockchain node monitoring core

Shallow embedding of the verification core of the LYFTIUM-INC/nodes
repository: the consistency analyzer, health scorer, integrity verifier,
reorg detector, alert manager and node status collector.  Pure
computations are translated directly; RPC / subprocess probes are passed
in as explicit oracle arguments (the probe outcome a run would have
observed).  Python ints are ℕ (block numbers, parsed from non-negative
hex) or ℤ (differences); Python floats are ℚ — every float value reached
by these code paths (multiples of 0.5, exact divisions recorded
symbolically) is represented exactly.
-/

namespace NodesMonitor

/-! ## Consistency Analyzer, comprehensive variant
(`bin/blockchain_sync_verification_comprehensive.py`,
`verify_cross_node_consistency`).  Fields of `SyncStatus` that the
analyzer merely copies into its output (peer count, cpu, …) are omitted;
`current_block` and the node name are what the analysis reads. -/

structure SyncStatus where
  node_type : String
  current_block : ℕ
  deriving Repr, DecidableEq

structure ConsistencySummary where
  total_nodes : ℕ
  highest_block : ℕ
  lowest_block : ℕ
  block_difference : ℤ
  tolerance_blocks : ℕ
  consistent : Bool
  deriving Repr, DecidableEq

structure NodeAnalysis where
  node_type : String
  current_block : ℕ
  lagging : Bool
  blocks_behind : ℤ
  deriving Repr, DecidableEq

structure ConsistencyResult where
  summary : ConsistencySummary
  nodes : List NodeAnalysis
  deriving Repr, DecidableEq

/-- `blocks = [s.current_block for s in node_statuses.values() if s.current_block > 0]` -/
def usableBlocks (statuses : List SyncStatus) : List ℕ :=
  (statuses.map SyncStatus.current_block).filter (fun b => decide (0 < b))

/-- The success branch of `verify_cross_node_consistency`, with `b :: bs`
the non-empty list of usable blocks (`blocks` in the source). -/
def consistencyOk (tolerance_blocks : ℕ) (statuses : List SyncStatus)
    (b : ℕ) (bs : List ℕ) : ConsistencyResult :=
  let max_block := bs.foldl max b
  let min_block := bs.foldl min b
  let block_diff : ℤ := (max_block : ℤ) - (min_block : ℤ)
  { summary :=
      { total_nodes := statuses.length
        highest_block := max_block
        lowest_block := min_block
        block_difference := block_diff
        tolerance_blocks := tolerance_blocks
        consistent := decide (block_diff ≤ (tolerance_blocks : ℤ)) }
    nodes := statuses.map (fun st =>
      { node_type := st.node_type
        current_block := st.current_block
        lagging :=
          decide ((tolerance_blocks : ℤ) <
            (max_block : ℤ) - (st.current_block : ℤ))
        blocks_behind := (max_block : ℤ) - (st.current_block : ℤ) }) }

/-- Core of `verify_cross_node_consistency`: the statuses gathered from the
per-node probes are the input list.  Returns the error dict branches as
`Except.error`, and the `summary` / per-node analysis otherwise.
`consistent = block_diff <= tolerance_blocks`;
`is_lagging = block_diff_from_max > tolerance_blocks`. -/
def verify_cross_node_consistency (tolerance_blocks : ℕ)
    (statuses : List SyncStatus) : Except String ConsistencyResult :=
  if statuses.isEmpty then Except.error "No node status available"
  else
    match usableBlocks statuses with
    | [] => Except.error "No valid block numbers found"
    | b :: bs => Except.ok (consistencyOk tolerance_blocks statuses b bs)

/-! ## Consistency Analyzer, advanced variant
(`scripts/monitoring/blockchain_sync_verification_advanced.py`,
`validate_cross_node_consistency`).  The node table filters on
`node.current_block is not None` — `current_block` is `Option ℕ` here. -/

structure NodeInfo where
  name : String
  status : String
  current_block : Option ℕ
  deriving Repr, DecidableEq

structure LaggingNode where
  name : String
  block_number : ℕ
  lag_blocks : ℤ
  status : String
  deriving Repr, DecidableEq

structure AdvConsistencyReport where
  network : String
  tolerance : ℕ
  max_block : ℕ
  min_block : ℕ
  block_difference : ℤ
  nodes_consistent : Bool
  lagging_nodes : List LaggingNode
  analysis_status : String
  deriving Repr, DecidableEq

/-- `block_numbers[node_name] = node.current_block` collected over
`if node.current_block is not None` (name, block, status triples). -/
def reportedNodes (nodes : List NodeInfo) : List (String × ℕ × String) :=
  nodes.filterMap (fun n => n.current_block.map (fun b => (n.name, b, n.status)))

/-- The success branch of `validate_cross_node_consistency`, with `p :: ps`
the non-empty per-node (name, block, status) table. -/
def advConsistencyOk (network : String) (tolerance : ℕ)
    (p : String × ℕ × String) (ps : List (String × ℕ × String)) :
    AdvConsistencyReport :=
  let blocks := ps.map (fun q => q.2.1)
  let max_block := blocks.foldl max p.2.1
  let min_block := blocks.foldl min p.2.1
  let block_diff : ℤ := (max_block : ℤ) - (min_block : ℤ)
  { network := network
    tolerance := tolerance
    max_block := max_block
    min_block := min_block
    block_difference := block_diff
    nodes_consistent := decide (block_diff ≤ (tolerance : ℤ))
    lagging_nodes := (p :: ps).filterMap (fun q =>
      if (tolerance : ℤ) < (max_block : ℤ) - (q.2.1 : ℤ) then
        some { name := q.1
               block_number := q.2.1
               lag_blocks := (max_block : ℤ) - (q.2.1 : ℤ)
               status := q.2.2 }
      else none)
    analysis_status :=
      if block_diff = 0 then "perfect_consistency"
      else if block_diff ≤ (tolerance : ℤ) then "acceptable_consistency"
      else if block_diff ≤ 20 then "minor_divergence"
      else "major_divergence" }

/-- Core of `validate_cross_node_consistency`. -/
def validate_cross_node_consistency (network : String) (tolerance : ℕ)
    (nodes : List NodeInfo) : Except String AdvConsistencyReport :=
  match reportedNodes nodes with
  | [] => Except.error "No block data available"
  | p :: ps => Except.ok (advConsistencyOk network tolerance p ps)

/-! ### Fold lemmas: Python `max(list)` / `min(list)` as a left fold. -/

theorem init_le_foldl_max (l : List ℕ) : ∀ a : ℕ, a ≤ l.foldl max a := by
  induction l with
  | nil => intro a; exact le_refl a
  | cons x xs ih =>
    intro a
    exact le_trans (le_max_left a x) (ih (max a x))

theorem mem_le_foldl_max (l : List ℕ) : ∀ a x : ℕ, x ∈ l → x ≤ l.foldl max a := by
  induction l with
  | nil => intro a x hx; cases hx
  | cons y ys ih =>
    intro a x hx
    rcases List.mem_cons.mp hx with h | h
    · subst h
      exact le_trans (le_max_right a x) (init_le_foldl_max ys (max a x))
    · exact ih (max a y) x h

theorem foldl_max_mem (l : List ℕ) : ∀ a : ℕ, l.foldl max a = a ∨ l.foldl max a ∈ l := by
  induction l with
  | nil => intro a; exact Or.inl rfl
  | cons x xs ih =>
    intro a
    rcases ih (max a x) with h | h
    · rcases max_choice a x with hm | hm
      · exact Or.inl (by rw [List.foldl_cons, h, hm])
      · refine Or.inr ?_
        rw [List.foldl_cons, h, hm]
        exact List.mem_cons_self x xs
    · exact Or.inr (List.mem_cons_of_mem x h)

theorem foldl_min_le_init (l : List ℕ) : ∀ a : ℕ, l.foldl min a ≤ a := by
  induction l with
  | nil => intro a; exact le_refl a
  | cons x xs ih =>
    intro a
    exact le_trans (ih (min a x)) (min_le_left a x)

theorem foldl_min_le_mem (l : List ℕ) : ∀ a x : ℕ, x ∈ l → l.foldl min a ≤ x := by
  induction l with
  | nil => intro a x hx; cases hx
  | cons y ys ih =>
    intro a x hx
    rcases List.mem_cons.mp hx with h | h
    · subst h
      exact le_trans (foldl_min_le_init ys (min a x)) (min_le_right a x)
    · exact ih (min a y) x h

theorem foldl_min_mem (l : List ℕ) : ∀ a : ℕ, l.foldl min a = a ∨ l.foldl min a ∈ l := by
  induction l with
  | nil => intro a; exact Or.inl rfl
  | cons x xs ih =>
    intro a
    rcases ih (min a x) with h | h
    · rcases min_choice a x with hm | hm
      · exact Or.inl (by rw [List.foldl_cons, h, hm])
      · refine Or.inr ?_
        rw [List.foldl_cons, h, hm]
        exact List.mem_cons_self x xs
    · exact Or.inr (List.mem_cons_of_mem x h)

/-! ### Inversion helpers for the two analyzers -/

theorem verify_ok_inv (tol : ℕ) (statuses : List SyncStatus)
    (res : ConsistencyResult)
    (h : verify_cross_node_consistency tol statuses = Except.ok res) :
    ∃ b bs, usableBlocks statuses = b :: bs ∧
      res = consistencyOk tol statuses b bs := by
  unfold verify_cross_node_consistency at h
  split at h
  · exact absurd h (by simp)
  · split at h
    · exact absurd h (by simp)
    · rename_i b bs heq
      exact ⟨b, bs, heq, ((Except.ok.injEq _ _).mp h).symm⟩

theorem validate_ok_inv (net : String) (tol : ℕ) (nodes : List NodeInfo)
    (rep : AdvConsistencyReport)
    (h : validate_cross_node_consistency net tol nodes = Except.ok rep) :
    ∃ p ps, reportedNodes nodes = p :: ps ∧
      rep = advConsistencyOk net tol p ps := by
  unfold validate_cross_node_consistency at h
  split at h
  · exact absurd h (by simp)
  · rename_i p ps heq
    exact ⟨p, ps, heq, ((Except.ok.injEq _ _).mp h).symm⟩

theorem foldl_min_le_foldl_max (l : List ℕ) (a : ℕ) :
    l.foldl min a ≤ l.foldl max a :=
  le_trans (foldl_min_le_init l a) (init_le_foldl_max l a)

/-! ### Demo inputs (Scenario A of the spec: blocks 100 and 105) -/

def demoStatuses : List SyncStatus := [⟨"geth", 100⟩, ⟨"erigon", 105⟩]

def demoNodes : List NodeInfo :=
  [⟨"Geth", "running", some 100⟩, ⟨"Erigon", "running", some 105⟩]

/-- C1: in both consistency analyzers, divergence (`block_difference`)
equals max_block minus min_block where max/min are taken over the nodes
with usable block data, divergence is non-negative, and the consistent
verdict holds iff divergence ≤ tolerance_blocks, boundary inclusive. -/
theorem C1_divergence_and_inclusive_tolerance
    (tol : ℕ) (statuses : List SyncStatus)
    (net : String) (nodes : List NodeInfo)
    (res : ConsistencyResult) (rep : AdvConsistencyReport)
    (hres : verify_cross_node_consistency tol statuses = Except.ok res)
    (hrep : validate_cross_node_consistency net tol nodes = Except.ok rep) :
    (res.summary.block_difference =
        (res.summary.highest_block : ℤ) - (res.summary.lowest_block : ℤ)
      ∧ 0 ≤ res.summary.block_difference
      ∧ res.summary.highest_block ∈ usableBlocks statuses
      ∧ res.summary.lowest_block ∈ usableBlocks statuses
      ∧ (∀ x ∈ usableBlocks statuses, x ≤ res.summary.highest_block)
      ∧ (∀ x ∈ usableBlocks statuses, res.summary.lowest_block ≤ x)
      ∧ (res.summary.consistent = true ↔
          res.summary.block_difference ≤ (tol : ℤ)))
    ∧ (rep.block_difference = (rep.max_block : ℤ) - (rep.min_block : ℤ)
      ∧ 0 ≤ rep.block_difference
      ∧ (rep.nodes_consistent = true ↔ rep.block_difference ≤ (tol : ℤ))) := by
  obtain ⟨b, bs, heq, hres'⟩ := verify_ok_inv tol statuses res hres
  obtain ⟨p, ps, _, hrep'⟩ := validate_ok_inv net tol nodes rep hrep
  subst hres' hrep'
  simp only [consistencyOk, advConsistencyOk, heq]
  refine ⟨⟨trivial, ?_, ?_, ?_, ?_, ?_, decide_eq_true_iff⟩,
          trivial, ?_, decide_eq_true_iff⟩
  · have h := foldl_min_le_foldl_max bs b
    omega
  · rcases foldl_max_mem bs b with h | h
    · rw [h]; exact List.mem_cons_self b bs
    · exact List.mem_cons_of_mem b h
  · rcases foldl_min_mem bs b with h | h
    · rw [h]; exact List.mem_cons_self b bs
    · exact List.mem_cons_of_mem b h
  · intro x hx
    rcases List.mem_cons.mp hx with h | h
    · subst h; exact init_le_foldl_max bs x
    · exact mem_le_foldl_max bs b x h
  · intro x hx
    rcases List.mem_cons.mp hx with h | h
    · subst h; exact foldl_min_le_init bs x
    · exact foldl_min_le_mem bs b x h
  · have h := foldl_min_le_foldl_max (ps.map (fun q => q.2.1)) p.2.1
    omega

/-- Witness for C1 at Scenario A (blocks 100 and 105, tolerance 5). -/
theorem C1_divergence_and_inclusive_tolerance_witness :
    (verify_cross_node_consistency 5 demoStatuses =
        Except.ok (consistencyOk 5 demoStatuses 100 [105]))
    ∧ ((consistencyOk 5 demoStatuses 100 [105]).summary.consistent = true ↔
        (consistencyOk 5 demoStatuses 100 [105]).summary.block_difference ≤ (5 : ℤ)) :=
  ⟨rfl,
    (C1_divergence_and_inclusive_tolerance 5 demoStatuses "mainnet" demoNodes
      (consistencyOk 5 demoStatuses 100 [105])
      (advConsistencyOk "mainnet" 5 ("Geth", 100, "running")
        [("Erigon", 105, "running")]) rfl rfl).1.2.2.2.2.2.2⟩

/-- C2: in both analyzers, each node's `blocks_behind` / `lag_blocks`
equals max_block minus that node's block, and a node is lagging iff
blocks_behind is strictly greater than the tolerance; a node exactly at
the tolerance is not reported as lagging. -/
theorem C2_lagging_strict_boundary
    (tol : ℕ) (statuses : List SyncStatus)
    (net : String) (nodes : List NodeInfo)
    (res : ConsistencyResult) (rep : AdvConsistencyReport)
    (hres : verify_cross_node_consistency tol statuses = Except.ok res)
    (hrep : validate_cross_node_consistency net tol nodes = Except.ok rep) :
    (∀ a ∈ res.nodes,
        a.blocks_behind =
          (res.summary.highest_block : ℤ) - (a.current_block : ℤ)
        ∧ (a.lagging = true ↔ (tol : ℤ) < a.blocks_behind))
    ∧ (∀ e ∈ rep.lagging_nodes,
        e.lag_blocks = (rep.max_block : ℤ) - (e.block_number : ℤ)
        ∧ (tol : ℤ) < e.lag_blocks)
    ∧ (∀ (nm st' : String) (bn : ℕ),
        (rep.max_block : ℤ) - (bn : ℤ) ≤ (tol : ℤ) →
        LaggingNode.mk nm bn ((rep.max_block : ℤ) - (bn : ℤ)) st' ∉
          rep.lagging_nodes) := by
  obtain ⟨b, bs, _, hres'⟩ := verify_ok_inv tol statuses res hres
  obtain ⟨p, ps, _, hrep'⟩ := validate_ok_inv net tol nodes rep hrep
  subst hres' hrep'
  refine ⟨?_, ?_, ?_⟩
  · intro a ha
    simp only [consistencyOk, List.mem_map] at ha
    obtain ⟨st, _, hst⟩ := ha
    subst hst
    exact ⟨rfl, decide_eq_true_iff⟩
  · intro e he
    simp only [advConsistencyOk, List.mem_filterMap] at he
    obtain ⟨q, _, hq⟩ := he
    by_cases hc :
        (tol : ℤ) <
          (((ps.map (fun q => q.2.1)).foldl max p.2.1 : ℕ) : ℤ) - (q.2.1 : ℤ)
    · rw [if_pos hc] at hq
      cases hq
      exact ⟨rfl, hc⟩
    · rw [if_neg hc] at hq
      cases hq
  · intro nm st' bn hle hmem
    simp only [advConsistencyOk, List.mem_filterMap] at hmem
    obtain ⟨q, _, hq⟩ := hmem
    by_cases hc :
        (tol : ℤ) <
          (((ps.map (fun q => q.2.1)).foldl max p.2.1 : ℕ) : ℤ) - (q.2.1 : ℤ)
    · rw [if_pos hc] at hq
      injection hq with hq'
      have hbn : q.2.1 = bn := congrArg LaggingNode.block_number hq'
      rw [hbn] at hc
      simp only [advConsistencyOk] at hle
      omega
    · rw [if_neg hc] at hq
      cases hq

/-- Witness for C2 at Scenario B (blocks 100 and 105, tolerance 4): the
node 5 blocks behind is lagging. -/
theorem C2_lagging_strict_boundary_witness :
    (verify_cross_node_consistency 4 demoStatuses =
        Except.ok (consistencyOk 4 demoStatuses 100 [105]))
    ∧ (∀ a ∈ (consistencyOk 4 demoStatuses 100 [105]).nodes,
        a.blocks_behind =
          ((consistencyOk 4 demoStatuses 100 [105]).summary.highest_block : ℤ)
            - (a.current_block : ℤ)
        ∧ (a.lagging = true ↔ (4 : ℤ) < a.blocks_behind)) :=
  ⟨rfl,
    (C2_lagging_strict_boundary 4 demoStatuses "mainnet" demoNodes
      (consistencyOk 4 demoStatuses 100 [105])
      (advConsistencyOk "mainnet" 4 ("Geth", 100, "running")
        [("Erigon", 105, "running")]) rfl rfl).1⟩

/-! ### C3: the no-data case -/

def zeroNodes : List NodeInfo :=
  [⟨"Erigon", "running", some 0⟩, ⟨"Geth", "running", some 0⟩]

/-- C3 counterexample: in the advanced analyzer the usable-node filter is
`current_block is not None`, not `current_block > 0`.  A node set in
which every node reports block 0 (not None) — so no node reports
`current_block > 0` — is not answered with the no-data error: it yields a
report whose consistent verdict is `true`. -/
theorem C3_counterexample :
    (∀ n ∈ zeroNodes, ∀ bn, n.current_block = some bn → bn = 0)
    ∧ (validate_cross_node_consistency "mainnet" 3 zeroNodes).map
        AdvConsistencyReport.nodes_consistent = Except.ok true := by
  constructor
  · decide
  · rfl

/-- C3 amended: the comprehensive analyzer ranges only over nodes with
`current_block > 0` (see C1's membership conjuncts) and answers an input
in which no node reports a positive block with an explicit error, never a
success; the advanced analyzer filters on `current_block is not None`,
so it returns its no-data error when every node's block is absent, but a
present block of 0 counts as data and makes it return a report. -/
theorem C3_amended_no_data_error
    (tol : ℕ) (statuses : List SyncStatus)
    (net : String) (nodes : List NodeInfo)
    (hz : ∀ s ∈ statuses, s.current_block = 0)
    (hn : ∀ n ∈ nodes, n.current_block = none) :
    (∃ e, verify_cross_node_consistency tol statuses = Except.error e)
    ∧ (∀ r, verify_cross_node_consistency tol statuses ≠ Except.ok r)
    ∧ validate_cross_node_consistency net tol nodes =
        Except.error "No block data available"
    ∧ (∀ (nodes' : List NodeInfo) (n : NodeInfo) (bn : ℕ),
        n ∈ nodes' → n.current_block = some bn →
        ∃ r, validate_cross_node_consistency net tol nodes' = Except.ok r) := by
  have hub : usableBlocks statuses = [] := by
    apply List.filter_eq_nil_iff.mpr
    intro a ha
    obtain ⟨s, hs, hsa⟩ := List.mem_map.mp ha
    rw [← hsa, hz s hs]
    decide
  have hrn : reportedNodes nodes = [] := by
    apply List.filterMap_eq_nil_iff.mpr
    intro n hmem
    rw [hn n hmem]
    rfl
  have herr : ∃ e, verify_cross_node_consistency tol statuses = Except.error e := by
    unfold verify_cross_node_consistency
    rw [hub]
    by_cases hse : statuses.isEmpty
    · rw [if_pos hse]; exact ⟨_, rfl⟩
    · rw [if_neg hse]; exact ⟨_, rfl⟩
  refine ⟨herr, ?_, ?_, ?_⟩
  · intro r hok
    obtain ⟨e, he⟩ := herr
    rw [he] at hok
    cases hok
  · unfold validate_cross_node_consistency
    rw [hrn]
  · intro nodes' n bn hmem hsome
    have : (n.name, bn, n.status) ∈ reportedNodes nodes' := by
      apply List.mem_filterMap.mpr
      exact ⟨n, hmem, by rw [hsome]; rfl⟩
    unfold validate_cross_node_consistency
    cases hrn' : reportedNodes nodes' with
    | nil => rw [hrn'] at this; cases this
    | cons p ps => exact ⟨_, rfl⟩

/-- Witness for the amended C3: two statuses at block 0 and two absent
advanced nodes produce the two error results. -/
theorem C3_amended_no_data_error_witness :
    ((∀ s ∈ [SyncStatus.mk "geth" 0], s.current_block = 0)
      ∧ (∀ n ∈ [NodeInfo.mk "Geth" "stopped" none], n.current_block = none))
    ∧ validate_cross_node_consistency "mainnet" 3
        [NodeInfo.mk "Geth" "stopped" none] =
        Except.error "No block data available" :=
  ⟨⟨by decide, by decide⟩,
    (C3_amended_no_data_error 3 [SyncStatus.mk "geth" 0] "mainnet"
      [NodeInfo.mk "Geth" "stopped" none]
      (by decide) (by decide)).2.2.1⟩

/-! ## Health Scorer
(`blockchain_sync_verification_advanced.py`, `calculate_node_health_score`).
`self.peers_threshold = 25` in `__init__`; the memory/cpu ceilings 16000 MB
and 80% are literals in the function.  Weights: 25 service, 25 RPC,
30 sync (full at `sync_progress >= 99.5`), 10 peers, 5 + 5 resources. -/

def peers_threshold : ℕ := 25

def calculate_node_health_score (status : String) (rpc_responsive : Bool)
    (sync_progress : Option ℚ) (peers : ℕ)
    (memory_mb cpu_usage_percent : ℚ) : ℚ :=
  let s1 : ℚ := if status = "running" then 25 else 0
  let s2 : ℚ := if rpc_responsive then 25 else 0
  let s3 : ℚ :=
    match sync_progress with
    | some p => if (99.5 : ℚ) ≤ p then 30 else p / 100 * 30
    | none => 0
  let s4 : ℚ :=
    if peers_threshold ≤ peers then 10
    else (peers : ℚ) / (peers_threshold : ℚ) * 10
  let s5 : ℚ :=
    (if 0 < memory_mb ∧ memory_mb < 16000 then 5 else 0)
      + (if 0 < cpu_usage_percent ∧ cpu_usage_percent < 80 then 5 else 0)
  min 100 (s1 + s2 + s3 + s4 + s5)

/-- C8: a node with the service running, RPC responsive, sync_progress
100, peer count at or above the peer threshold, and cpu/memory readings
inside the scorer's resource-efficiency windows (a strictly positive
reading under the 16000 MB / 80% ceiling) scores exactly 100; and for any
status with a non-negative sync progress the score lies in [0, 100]. -/
theorem C8_health_score_perfect_and_clamped
    (status : String) (rpc_responsive : Bool) (sync_progress : Option ℚ)
    (peers : ℕ) (memory_mb cpu_usage_percent : ℚ)
    (hsp : ∀ p, sync_progress = some p → 0 ≤ p) :
    (status = "running" → rpc_responsive = true →
      sync_progress = some 100 → peers_threshold ≤ peers →
      0 < memory_mb → memory_mb < 16000 →
      0 < cpu_usage_percent → cpu_usage_percent < 80 →
      calculate_node_health_score status rpc_responsive sync_progress
        peers memory_mb cpu_usage_percent = 100)
    ∧ 0 ≤ calculate_node_health_score status rpc_responsive sync_progress
        peers memory_mb cpu_usage_percent
    ∧ calculate_node_health_score status rpc_responsive sync_progress
        peers memory_mb cpu_usage_percent ≤ 100 := by
  refine ⟨?_, ?_, min_le_left _ _⟩
  · intro h1 h2 h3 h4 hm1 hm2 hc1 hc2
    subst h3
    unfold calculate_node_health_score
    rw [if_pos h1, if_pos h2, if_pos h4, if_pos ⟨hm1, hm2⟩, if_pos ⟨hc1, hc2⟩]
    norm_num
  · have h1 : (0 : ℚ) ≤ if status = "running" then 25 else 0 := by positivity
    have h2 : (0 : ℚ) ≤ if rpc_responsive then 25 else 0 := by positivity
    have h4 : (0 : ℚ) ≤
        if peers_threshold ≤ peers then 10
        else (peers : ℚ) / (peers_threshold : ℚ) * 10 := by positivity
    have h5 : (0 : ℚ) ≤
        (if 0 < memory_mb ∧ memory_mb < 16000 then 5 else 0)
          + (if 0 < cpu_usage_percent ∧ cpu_usage_percent < 80 then 5 else 0) := by
      positivity
    rcases hps : sync_progress with _ | p
    · unfold calculate_node_health_score
      refine le_min (by norm_num) ?_
      have h3 : (0 : ℚ) ≤ (0 : ℚ) := le_refl 0
      exact add_nonneg (add_nonneg (add_nonneg (add_nonneg h1 h2) h3) h4) h5
    · have hp0 := hsp p hps
      have h3 : (0 : ℚ) ≤ if (99.5 : ℚ) ≤ p then 30 else p / 100 * 30 := by
        by_cases hb : (99.5 : ℚ) ≤ p
        · rw [if_pos hb]; norm_num
        · rw [if_neg hb]; positivity
      unfold calculate_node_health_score
      refine le_min (by norm_num) ?_
      exact add_nonneg (add_nonneg (add_nonneg (add_nonneg h1 h2) h3) h4) h5

/-- Witness for C8: Scenario C — running, responsive, fully synced,
30 peers, 8000 MB memory, 40% cpu scores 100 and lies in [0, 100]. -/
theorem C8_health_score_perfect_and_clamped_witness :
    calculate_node_health_score "running" true (some 100) 30 8000 40 = 100
    ∧ 0 ≤ calculate_node_health_score "running" true (some 100) 30 8000 40 :=
  have h := C8_health_score_perfect_and_clamped "running" true (some 100)
    30 8000 40 (by intro p hp; cases hp; norm_num)
  ⟨h.1 rfl rfl rfl (by norm_num [peers_threshold]) (by norm_num) (by norm_num)
      (by norm_num) (by norm_num),
    h.2.1⟩

/-! ## Alert Manager
(`blockchain_sync_verification_advanced.py`, `trigger_alert`).
State: `self.alert_cooldowns` (key → last fired time), the append-only
alert storage (`store_alert`) and the dispatched notifications
(`send_notifications`).  `alert_key = f"TYPE_NODE_MESSAGE"`;
default `alert_cooldown = 600`. -/

structure Alert where
  atype : String
  message : String
  severity : String
  node_name : String
  fired_at : ℚ
  deriving Repr, DecidableEq

structure AlertState where
  alert_cooldowns : String → Option ℚ
  stored_alerts : List Alert
  notifications : List Alert

def alertKey (atype node_name message : String) : String :=
  atype ++ "_" ++ node_name ++ "_" ++ message

/-- The non-suppressed tail of `trigger_alert`: refresh the cooldown
entry for the key, store the alert, dispatch notifications. -/
def fireAlert (st : AlertState) (current_time : ℚ)
    (atype message severity node_name : String) : AlertState :=
  let key := alertKey atype node_name message
  let alert : Alert := ⟨atype, message, severity, node_name, current_time⟩
  { alert_cooldowns := fun k =>
      if k = key then some current_time else st.alert_cooldowns k
    stored_alerts := st.stored_alerts ++ [alert]
    notifications := st.notifications ++ [alert] }

/-- `trigger_alert`: if the key fired within the cooldown window, return
with no state change; otherwise record the fire time, store and notify. -/
def trigger_alert (cooldown : ℚ) (st : AlertState) (current_time : ℚ)
    (atype message severity node_name : String) : AlertState :=
  match st.alert_cooldowns (alertKey atype node_name message) with
  | some last =>
    if current_time - last < cooldown then st
    else fireAlert st current_time atype message severity node_name
  | none => fireAlert st current_time atype message severity node_name

/-- C7: with the default 600 s cooldown, firing a key at t=0 records one
alert, firing it again at t=300 is suppressed entirely (the state —
cooldown table, alert log, notifications — is exactly the post-t=0
state), and firing it again at t=700 records a second alert. -/
theorem C7_alert_dedup_cooldown
    (st0 : AlertState) (atype message severity node_name : String)
    (h0 : st0.alert_cooldowns (alertKey atype node_name message) = none) :
    (trigger_alert 600 st0 0 atype message severity node_name).stored_alerts
        = st0.stored_alerts ++ [⟨atype, message, severity, node_name, 0⟩]
    ∧ trigger_alert 600
        (trigger_alert 600 st0 0 atype message severity node_name) 300
        atype message severity node_name
      = trigger_alert 600 st0 0 atype message severity node_name
    ∧ (trigger_alert 600
        (trigger_alert 600
          (trigger_alert 600 st0 0 atype message severity node_name) 300
          atype message severity node_name) 700
        atype message severity node_name).stored_alerts
      = st0.stored_alerts ++ [⟨atype, message, severity, node_name, 0⟩,
                              ⟨atype, message, severity, node_name, 700⟩] := by
  have h1 : trigger_alert 600 st0 0 atype message severity node_name
      = fireAlert st0 0 atype message severity node_name := by
    unfold trigger_alert
    rw [h0]
  have hkey : (fireAlert st0 0 atype message severity node_name).alert_cooldowns
      (alertKey atype node_name message) = some 0 := by
    unfold fireAlert
    simp
  have h2 : trigger_alert 600
      (trigger_alert 600 st0 0 atype message severity node_name) 300
      atype message severity node_name
      = trigger_alert 600 st0 0 atype message severity node_name := by
    rw [h1]
    unfold trigger_alert
    rw [hkey]
    norm_num
  refine ⟨by rw [h1]; rfl, h2, ?_⟩
  rw [h2, h1]
  unfold trigger_alert
  rw [hkey]
  norm_num
  unfold fireAlert
  simp

/-- Witness for C7: the empty alert state and the key
("BLOCK_DIVERGENCE", "Geth", "nodes diverged"). -/
theorem C7_alert_dedup_cooldown_witness :
    (trigger_alert 600 (AlertState.mk (fun _ => none) [] []) 0
        "BLOCK_DIVERGENCE" "nodes diverged" "warning" "Geth").stored_alerts
      = [⟨"BLOCK_DIVERGENCE", "nodes diverged", "warning", "Geth", 0⟩]
    ∧ trigger_alert 600
        (trigger_alert 600 (AlertState.mk (fun _ => none) [] []) 0
          "BLOCK_DIVERGENCE" "nodes diverged" "warning" "Geth") 300
        "BLOCK_DIVERGENCE" "nodes diverged" "warning" "Geth"
      = trigger_alert 600 (AlertState.mk (fun _ => none) [] []) 0
          "BLOCK_DIVERGENCE" "nodes diverged" "warning" "Geth" :=
  have h := C7_alert_dedup_cooldown (AlertState.mk (fun _ => none) [] [])
    "BLOCK_DIVERGENCE" "nodes diverged" "warning" "Geth" rfl
  ⟨h.1, h.2.1⟩

/-- C9: when `trigger_alert` suppresses (the key fired within the
cooldown window), the returned state is the input state itself — the
cooldown entry is not refreshed, nothing is stored, nothing is notified —
so a fire attempted once the full cooldown has elapsed since the last
recorded fire still goes through, no matter how many suppressed attempts
happened in between. -/
theorem C9_suppression_mutates_nothing
    (cooldown : ℚ) (st : AlertState) (t1 t2 last : ℚ)
    (atype message severity node_name : String)
    (hlast : st.alert_cooldowns (alertKey atype node_name message) = some last)
    (hsup : t1 - last < cooldown) :
    trigger_alert cooldown st t1 atype message severity node_name = st
    ∧ (cooldown ≤ t2 - last →
        (trigger_alert cooldown
          (trigger_alert cooldown st t1 atype message severity node_name) t2
          atype message severity node_name).stored_alerts
        = st.stored_alerts ++ [⟨atype, message, severity, node_name, t2⟩]) := by
  have h1 : trigger_alert cooldown st t1 atype message severity node_name = st := by
    unfold trigger_alert
    rw [hlast]
    show (if t1 - last < cooldown then st
          else fireAlert st t1 atype message severity node_name) = st
    rw [if_pos hsup]
  refine ⟨h1, ?_⟩
  intro h2
  rw [h1]
  unfold trigger_alert
  rw [hlast]
  show (if t2 - last < cooldown then st
        else fireAlert st t2 atype message severity node_name).stored_alerts = _
  rw [if_neg (by linarith)]
  rfl

/-- Witness for C9: a state whose table holds the key at time 0; a second
attempt at t=300 under a 600 s cooldown is the identity, and t=700 fires. -/
theorem C9_suppression_mutates_nothing_witness :
    trigger_alert 600
      (AlertState.mk
        (fun k => if k = alertKey "SYNC_STALL" "Erigon" "sync stalled"
                  then some 0 else none) [] [])
      300 "SYNC_STALL" "sync stalled" "critical" "Erigon"
    = AlertState.mk
        (fun k => if k = alertKey "SYNC_STALL" "Erigon" "sync stalled"
                  then some 0 else none) [] [] :=
  (C9_suppression_mutates_nothing 600
    (AlertState.mk
      (fun k => if k = alertKey "SYNC_STALL" "Erigon" "sync stalled"
                then some 0 else none) [] [])
    300 700 0 "SYNC_STALL" "sync stalled" "critical" "Erigon"
    (by simp) (by norm_num)).1

/-! ## Integrity Verifier (`chain_integrity_verifier.py`)

The RPC / external-reference probes are an oracle: `localHash h` /
`refHash h` is what `get_block_hash` / `get_reference_block_hash`
returned for height `h` (`none` covers a failed fetch and the falsy
empty-string hash, both of which the source skips), `blockKeys` the field
keys of the `eth_getBlockByNumber` result used by `verify_chain_work`,
`blockFields` the key/value pairs of the one used by
`validate_state_root` (`none` = fetch failed). -/

structure ChainIntegrityResult where
  node_name : String
  is_valid : Bool
  block_diff : ℤ
  hash_matches : Bool
  reorg_detected : Bool
  reorg_depth : ℕ
  chain_work_valid : Bool
  state_root_valid : Bool
  issues : List String
  reference_block : ℕ
  local_block : ℕ
  confidence_score : ℚ
  deriving Repr, DecidableEq

structure NodeProbe where
  localHash : ℕ → Option String
  refHash : ℕ → Option String
  blockKeys : Option (List String)
  blockFields : Option (List (String × String))

def required_fields : List String :=
  ["hash", "parentHash", "number", "timestamp", "transactions"]

/-- `verify_chain_work`: all required structural fields present in the
fetched block; `false` on a failed fetch. -/
def verify_chain_work (blockKeys : Option (List String)) : Bool :=
  match blockKeys with
  | some keys => required_fields.all (fun f => keys.contains f)
  | none => false

/-- `validate_state_root`: `block_data.get('stateRoot', '')` must start
with `0x` and have length 66; `false` on a failed fetch. -/
def validate_state_root (blockFields : Option (List (String × String))) : Bool :=
  match blockFields with
  | some kvs =>
    let state_root := (kvs.lookup "stateRoot").getD ""
    state_root.startsWith "0x" && state_root.length == 66
  | none => false

/-- `perform_comprehensive_integrity_checks`: hash comparison only when
both hashes are truthy (−20 on mismatch), chain-work validation (−15 on
failure), state-root validation only for `local_block > 0` (−10 on
failure).  No floor is applied anywhere. -/
def perform_comprehensive_integrity_checks (probe : NodeProbe)
    (local_block : ℕ) (result : ChainIntegrityResult) : ChainIntegrityResult :=
  let r1 :=
    match probe.localHash local_block, probe.refHash local_block with
    | some lh, some rh =>
      if lh = rh then { result with hash_matches := true }
      else
        { result with
            hash_matches := false
            issues := result.issues ++
              ["Block hash mismatch at block " ++ toString local_block]
            confidence_score := result.confidence_score - 20 }
    | _, _ => result
  let r2 :=
    if verify_chain_work probe.blockKeys then { r1 with chain_work_valid := true }
    else
      { r1 with
          chain_work_valid := false
          issues := r1.issues ++ ["Chain work verification failed"]
          confidence_score := r1.confidence_score - 15 }
  if 0 < local_block then
    if validate_state_root probe.blockFields then { r2 with state_root_valid := true }
    else
      { r2 with
          state_root_valid := false
          issues := r2.issues ++ ["State root validation failed"]
          confidence_score := r2.confidence_score - 10 }
  else r2

def max_check_depth : ℕ := 10

/-- Python `for i in range(1, min(max_check_depth, current_block))`:
the depths the reorg scan actually visits. -/
def reorgScanDepths (current_block : ℕ) : List ℕ :=
  List.range' 1 (min max_check_depth current_block - 1)

/-- The loop-body comparison at depth `i`: skipped (`false`) unless both
the local and the reference hash for `current_block - i` were obtained. -/
def isMismatchAt (probe : NodeProbe) (current_block i : ℕ) : Bool :=
  match probe.localHash (current_block - i), probe.refHash (current_block - i) with
  | some lh, some rh => lh != rh
  | _, _ => false

/-- `detect_reorganizations`: first mismatching depth in the scan window
(`break`), else depth 0; returns `(reorg_depth > 0, reorg_depth)`. -/
def detect_reorganizations (probe : NodeProbe) (current_block : ℕ) : Bool × ℕ :=
  match (reorgScanDepths current_block).find? (isMismatchAt probe current_block) with
  | some i => (decide (0 < i), i)
  | none => (false, 0)

/-- A real (not data-unavailability) mismatch at depth `i`. -/
def MismatchAt (probe : NodeProbe) (current_block i : ℕ) : Prop :=
  ∃ lh rh, probe.localHash (current_block - i) = some lh
    ∧ probe.refHash (current_block - i) = some rh ∧ lh ≠ rh

theorem isMismatchAt_iff (probe : NodeProbe) (cb i : ℕ) :
    isMismatchAt probe cb i = true ↔ MismatchAt probe cb i := by
  unfold isMismatchAt MismatchAt
  cases h1 : probe.localHash (cb - i) with
  | none =>
    simp only [Bool.false_eq_true, false_iff]
    rintro ⟨lh, rh, hl, _, _⟩
    cases hl
  | some lh =>
    cases h2 : probe.refHash (cb - i) with
    | none =>
      simp only [Bool.false_eq_true, false_iff]
      rintro ⟨lh', rh', hl', hr', _⟩
      cases hr'
    | some rh =>
      constructor
      · intro h
        exact ⟨lh, rh, rfl, rfl, by simpa using h⟩
      · rintro ⟨lh', rh', hl', hr', hne⟩
        cases hl'
        cases hr'
        simpa using hne

/-- The result skeleton `verify_chain_integrity` builds before the
probes: dataclass defaults plus the explicitly passed fields. -/
def initialResult (node_name : String) (reference_block : ℕ) :
    ChainIntegrityResult :=
  { node_name := node_name, is_valid := false, block_diff := 0
    hash_matches := false, reorg_detected := false, reorg_depth := 0
    chain_work_valid := true, state_root_valid := true, issues := []
    reference_block := reference_block, local_block := 0
    confidence_score := 0 }

/-- The lag-based validation (`result.block_diff <= 5 / <= 20 / else`)
that sets `is_valid` and the confidence base 100 / 80 / 0. -/
def integrityBase (node_name : String) (reference_block local_block : ℕ) :
    ChainIntegrityResult :=
  let block_diff : ℤ := (reference_block : ℤ) - (local_block : ℤ)
  let result2 :=
    { initialResult node_name reference_block with
        local_block := local_block
        block_diff := block_diff }
  if block_diff ≤ 5 then
    { result2 with is_valid := true, confidence_score := 100 }
  else if block_diff ≤ 20 then
    { result2 with
        is_valid := true
        confidence_score := 80
        issues := result2.issues ++
          ["Node lagging by " ++ toString block_diff ++ " blocks"] }
  else
    { result2 with
        is_valid := false
        confidence_score := 0
        issues := result2.issues ++
          ["Node significantly behind by " ++ toString block_diff ++ " blocks"] }

/-- `verify_chain_integrity`: its `try` body, with the probe outcomes
supplied by the oracle (the modelled body itself cannot raise, so the
`except` fallback is not reachable).  The comprehensive checks and the
reorg scan are guarded by the same level test, so the source's two
identical `if verification_level in [...]` guards are merged into one. -/
def verify_chain_integrity (node_name : String) (probe : NodeProbe)
    (reference_block local_block : ℕ) (verification_level : String) :
    ChainIntegrityResult :=
  if reference_block = 0 then
    { initialResult node_name reference_block with issues :=
        ["Failed to get reference block from external sources"] }
  else if local_block = 0 then
    { initialResult node_name reference_block with
        local_block := local_block
        issues := ["Failed to get local block from node"] }
  else
    let result3 := integrityBase node_name reference_block local_block
    if verification_level = "comprehensive" ∨ verification_level = "forensic" then
      let result4 := perform_comprehensive_integrity_checks probe local_block result3
      let rd := detect_reorganizations probe local_block
      { result4 with reorg_detected := rd.1, reorg_depth := rd.2 }
    else result3

/-! ### C4: confidence arithmetic -/

/-- The fixed penalty the hash comparison applies: 20 exactly when both
hashes were obtained and differ. -/
def hashPenalty (probe : NodeProbe) (local_block : ℕ) : ℚ :=
  match probe.localHash local_block, probe.refHash local_block with
  | some lh, some rh => if lh = rh then 0 else 20
  | _, _ => 0

def chainWorkPenalty (probe : NodeProbe) : ℚ :=
  if verify_chain_work probe.blockKeys then 0 else 15

def stateRootPenalty (probe : NodeProbe) (local_block : ℕ) : ℚ :=
  if 0 < local_block then
    (if validate_state_root probe.blockFields then 0 else 10)
  else 0

theorem hashPenalty_bounds (probe : NodeProbe) (lb : ℕ) :
    0 ≤ hashPenalty probe lb ∧ hashPenalty probe lb ≤ 20 := by
  unfold hashPenalty
  cases probe.localHash lb with
  | none => norm_num
  | some lh =>
    cases probe.refHash lb with
    | none => norm_num
    | some rh =>
      by_cases h : lh = rh <;> simp only [h] <;> norm_num

theorem chainWorkPenalty_bounds (probe : NodeProbe) :
    0 ≤ chainWorkPenalty probe ∧ chainWorkPenalty probe ≤ 15 := by
  unfold chainWorkPenalty
  by_cases h : verify_chain_work probe.blockKeys
  · rw [if_pos h]; norm_num
  · rw [if_neg h]; norm_num

theorem stateRootPenalty_bounds (probe : NodeProbe) (lb : ℕ) :
    0 ≤ stateRootPenalty probe lb ∧ stateRootPenalty probe lb ≤ 10 := by
  unfold stateRootPenalty
  by_cases h1 : 0 < lb
  · rw [if_pos h1]
    by_cases h2 : validate_state_root probe.blockFields
    · rw [if_pos h2]; norm_num
    · rw [if_neg h2]; norm_num
  · rw [if_neg h1]; norm_num

/-- The comprehensive checks change the confidence score by exactly the
sum of the three fixed penalties, each charged once. -/
theorem perform_checks_confidence_eq (probe : NodeProbe) (lb : ℕ)
    (r : ChainIntegrityResult) :
    (perform_comprehensive_integrity_checks probe lb r).confidence_score =
      r.confidence_score - hashPenalty probe lb - chainWorkPenalty probe
        - stateRootPenalty probe lb := by
  unfold perform_comprehensive_integrity_checks hashPenalty chainWorkPenalty
    stateRootPenalty
  cases h1 : probe.localHash lb with
  | none =>
    by_cases h2 : verify_chain_work probe.blockKeys <;>
      by_cases h3 : 0 < lb <;>
      by_cases h4 : validate_state_root probe.blockFields <;>
      simp [h2, h3, h4]
  | some lh =>
    cases h5 : probe.refHash lb with
    | none =>
      by_cases h2 : verify_chain_work probe.blockKeys <;>
        by_cases h3 : 0 < lb <;>
        by_cases h4 : validate_state_root probe.blockFields <;>
        simp [h2, h3, h4]
    | some rh =>
      by_cases h6 : lh = rh <;>
        by_cases h2 : verify_chain_work probe.blockKeys <;>
        by_cases h3 : 0 < lb <;>
        by_cases h4 : validate_state_root probe.blockFields <;>
        simp [h2, h3, h4, h6]

def cex4Probe : NodeProbe :=
  { localHash := fun _ => some "0xaa"
    refHash := fun _ => some "0xbb"
    blockKeys := some []
    blockFields := some [] }

/-- C4 counterexample: a node 50 blocks behind the reference (base
confidence 0) whose comprehensive checks also find a hash mismatch,
missing structural fields, and a malformed state root ends with
confidence −45: the score is not floored at 0 and leaves [0, 100]. -/
theorem C4_counterexample :
    (verify_chain_integrity "Geth" cex4Probe 100 50
        "comprehensive").confidence_score = -45
    ∧ (verify_chain_integrity "Geth" cex4Probe 100 50
        "comprehensive").confidence_score < 0 := by
  have hstep : (verify_chain_integrity "Geth" cex4Probe 100 50
      "comprehensive").confidence_score =
      (integrityBase "Geth" 100 50).confidence_score
        - hashPenalty cex4Probe 50 - chainWorkPenalty cex4Probe
        - stateRootPenalty cex4Probe 50 := by
    unfold verify_chain_integrity
    rw [if_neg (by norm_num), if_neg (by norm_num), if_pos (Or.inl rfl)]
    exact perform_checks_confidence_eq cex4Probe 50 (integrityBase "Geth" 100 50)
  have hbase : (integrityBase "Geth" 100 50).confidence_score = 0 := by
    unfold integrityBase
    rw [if_neg (by norm_num), if_neg (by norm_num)]
  have hhash : hashPenalty cex4Probe 50 = 20 := by decide
  have hcw : chainWorkPenalty cex4Probe = 15 := by decide
  have hsr : stateRootPenalty cex4Probe 50 = 10 := by decide
  rw [hstep, hbase, hhash, hcw, hsr]
  norm_num

/-- C4 amended: confidence never exceeds 100; each detected violation
decreases it by exactly its fixed penalty (20 hash mismatch, 15 missing
structural fields, 10 malformed state root), so it is bounded below by
the lag-determined base minus 45 — at least 35 ≥ 0 whenever the node is
at most 20 blocks behind, but with no floor at 0: a base of 0 (more than
20 blocks behind) can be driven down to −45. -/
theorem C4_amended_confidence_bounds :
    (∀ (probe : NodeProbe) (lb : ℕ) (r : ChainIntegrityResult),
      (perform_comprehensive_integrity_checks probe lb r).confidence_score =
        r.confidence_score - hashPenalty probe lb - chainWorkPenalty probe
          - stateRootPenalty probe lb)
    ∧ (∀ (nm : String) (probe : NodeProbe) (rb lb : ℕ) (lvl : String),
        (verify_chain_integrity nm probe rb lb lvl).confidence_score ≤ 100
        ∧ -45 ≤ (verify_chain_integrity nm probe rb lb lvl).confidence_score)
    ∧ (∀ (nm : String) (probe : NodeProbe) (rb lb : ℕ) (lvl : String),
        0 < rb → 0 < lb → (rb : ℤ) - (lb : ℤ) ≤ 20 →
        35 ≤ (verify_chain_integrity nm probe rb lb lvl).confidence_score) := by
  have hbounds : ∀ (probe : NodeProbe) (lb : ℕ) (r : ChainIntegrityResult),
      (perform_comprehensive_integrity_checks probe lb r).confidence_score ≤
        r.confidence_score
      ∧ r.confidence_score - 45 ≤
        (perform_comprehensive_integrity_checks probe lb r).confidence_score := by
    intro probe lb r
    rw [perform_checks_confidence_eq]
    have h1 := hashPenalty_bounds probe lb
    have h2 := chainWorkPenalty_bounds probe
    have h3 := stateRootPenalty_bounds probe lb
    constructor <;> linarith [h1.1, h1.2, h2.1, h2.2, h3.1, h3.2]
  have hbase : ∀ (nm : String) (rb lb : ℕ),
      ((rb : ℤ) - (lb : ℤ) ≤ 20 →
        (integrityBase nm rb lb).confidence_score = 100
        ∨ (integrityBase nm rb lb).confidence_score = 80)
      ∧ (0 ≤ (integrityBase nm rb lb).confidence_score
        ∧ (integrityBase nm rb lb).confidence_score ≤ 100) := by
    intro nm rb lb
    unfold integrityBase
    by_cases hd5 : (rb : ℤ) - (lb : ℤ) ≤ 5
    · rw [if_pos hd5]
      exact ⟨fun _ => Or.inl rfl, by norm_num, by norm_num⟩
    · rw [if_neg hd5]
      by_cases hd20 : (rb : ℤ) - (lb : ℤ) ≤ 20
      · rw [if_pos hd20]
        exact ⟨fun _ => Or.inr rfl, by norm_num, by norm_num⟩
      · rw [if_neg hd20]
        exact ⟨fun h => absurd h hd20, by norm_num, by norm_num⟩
  have hcore : ∀ (nm : String) (probe : NodeProbe) (rb lb : ℕ) (lvl : String),
      ((verify_chain_integrity nm probe rb lb lvl).confidence_score ≤ 100
        ∧ -45 ≤ (verify_chain_integrity nm probe rb lb lvl).confidence_score)
      ∧ (0 < rb → 0 < lb → (rb : ℤ) - (lb : ℤ) ≤ 20 →
          35 ≤ (verify_chain_integrity nm probe rb lb lvl).confidence_score) := by
    intro nm probe rb lb lvl
    unfold verify_chain_integrity
    by_cases h1 : rb = 0
    · rw [if_pos h1]
      refine ⟨⟨by norm_num [initialResult], by norm_num [initialResult]⟩, ?_⟩
      intro hrb _ _
      exact absurd h1 (Nat.pos_iff_ne_zero.mp hrb)
    · rw [if_neg h1]
      by_cases h2 : lb = 0
      · rw [if_pos h2]
        refine ⟨⟨by norm_num [initialResult], by norm_num [initialResult]⟩, ?_⟩
        intro _ hlb _
        exact absurd h2 (Nat.pos_iff_ne_zero.mp hlb)
      · rw [if_neg h2]
        have hb := hbase nm rb lb
        by_cases hlvl : lvl = "comprehensive" ∨ lvl = "forensic"
        · rw [if_pos hlvl]
          have hp := hbounds probe lb (integrityBase nm rb lb)
          have hfinal :
              ({ perform_comprehensive_integrity_checks probe lb
                    (integrityBase nm rb lb) with
                  reorg_detected := (detect_reorganizations probe lb).1
                  reorg_depth :=
                    (detect_reorganizations probe lb).2 }).confidence_score
              = (perform_comprehensive_integrity_checks probe lb
                  (integrityBase nm rb lb)).confidence_score := rfl
          rw [hfinal]
          refine ⟨⟨by linarith [hb.2.1, hb.2.2, hp.1, hp.2],
                   by linarith [hb.2.1, hb.2.2, hp.1, hp.2]⟩, ?_⟩
          intro _ _ hd20
          rcases hb.1 hd20 with h | h <;> linarith [hp.2, h]
        · rw [if_neg hlvl]
          refine ⟨⟨hb.2.2, by linarith [hb.2.1]⟩, ?_⟩
          intro _ _ hd20
          rcases hb.1 hd20 with h | h <;> linarith
  exact ⟨perform_checks_confidence_eq,
    fun nm probe rb lb lvl => (hcore nm probe rb lb lvl).1,
    fun nm probe rb lb lvl => (hcore nm probe rb lb lvl).2⟩

/-- Witness for the amended C4: a comprehensive verification of a node 3
blocks behind, with every check failing, still scores at least 35. -/
theorem C4_amended_confidence_bounds_witness :
    (0 < (100 : ℕ) ∧ 0 < (97 : ℕ) ∧ ((100 : ℕ) : ℤ) - ((97 : ℕ) : ℤ) ≤ 20)
    ∧ 35 ≤ (verify_chain_integrity "Erigon" cex4Probe 100 97
        "comprehensive").confidence_score :=
  ⟨⟨by norm_num, by norm_num, by norm_num⟩,
    C4_amended_confidence_bounds.2.2 "Erigon" cex4Probe 100 97 "comprehensive"
      (by norm_num) (by norm_num) (by norm_num)⟩

/-! ### C6 / C10: the reorg scan -/

/-- `List.find?` over `range' s n` returns a satisfying element and
nothing before it satisfies the predicate. -/
theorem range'_find?_spec (p : ℕ → Bool) :
    ∀ (n s d : ℕ), (List.range' s n).find? p = some d →
      p d = true ∧ d ∈ List.range' s n
      ∧ ∀ j, s ≤ j → j < d → p j = false := by
  intro n
  induction n with
  | zero => intro s d h; cases h
  | succ n ih =>
    intro s d h
    rw [List.range'_succ] at h
    by_cases hp : p s
    · rw [List.find?_cons_of_pos _ hp] at h
      injection h with h
      subst h
      refine ⟨hp, by rw [List.range'_succ]; exact List.mem_cons_self _ _, ?_⟩
      intro j h1 h2
      omega
    · rw [List.find?_cons_of_neg _ hp] at h
      obtain ⟨hpd, hmem, hprior⟩ := ih (s + 1) d h
      refine ⟨hpd,
        by rw [List.range'_succ]; exact List.mem_cons_of_mem _ hmem, ?_⟩
      intro j h1 h2
      rcases eq_or_lt_of_le h1 with h3 | h3
      · rw [← h3]
        exact eq_false_of_ne_true hp
      · exact hprior j h3 h2

theorem detect_fst_true_iff (probe : NodeProbe) (cb : ℕ) :
    (detect_reorganizations probe cb).1 = true ↔
      ∃ i ∈ reorgScanDepths cb, MismatchAt probe cb i := by
  unfold detect_reorganizations
  cases hf : (reorgScanDepths cb).find? (isMismatchAt probe cb) with
  | none =>
    show (false : Bool) = true ↔ _
    constructor
    · intro h
      exact absurd h (by simp)
    · rintro ⟨i, hi, hm⟩
      exact absurd ((isMismatchAt_iff probe cb i).mpr hm)
        (List.find?_eq_none.mp hf i hi)
  | some i =>
    have hmem := List.mem_of_find?_eq_some hf
    have hp := List.find?_some hf
    have h1 : 1 ≤ i := (List.mem_range'_1.mp hmem).1
    show decide (0 < i) = true ↔ _
    constructor
    · intro _
      exact ⟨i, hmem, (isMismatchAt_iff probe cb i).mp hp⟩
    · intro _
      exact decide_eq_true (by omega)

theorem detect_of_no_mismatch (probe : NodeProbe) (cb : ℕ)
    (h : ∀ i ∈ reorgScanDepths cb, ¬ MismatchAt probe cb i) :
    detect_reorganizations probe cb = (false, 0) := by
  unfold detect_reorganizations
  have hf : (reorgScanDepths cb).find? (isMismatchAt probe cb) = none :=
    List.find?_eq_none.mpr
      (fun i hi hp => h i hi ((isMismatchAt_iff probe cb i).mp hp))
  rw [hf]

theorem detect_first_mismatch (probe : NodeProbe) (cb d : ℕ)
    (h : detect_reorganizations probe cb = (true, d)) :
    d ∈ reorgScanDepths cb ∧ MismatchAt probe cb d
    ∧ ∀ j ∈ reorgScanDepths cb, j < d → ¬ MismatchAt probe cb j := by
  unfold detect_reorganizations at h
  cases hf : (reorgScanDepths cb).find? (isMismatchAt probe cb) with
  | none =>
    rw [hf] at h
    exact absurd (congrArg Prod.fst h) (by simp)
  | some i =>
    rw [hf] at h
    have hdi : i = d := congrArg Prod.snd h
    subst hdi
    have hmem := List.mem_of_find?_eq_some hf
    have hp := List.find?_some hf
    have hspec := range'_find?_spec (isMismatchAt probe cb) _ _ _ hf
    refine ⟨hmem, (isMismatchAt_iff probe cb i).mp hp, ?_⟩
    intro j hj hlt hm
    have h1 : 1 ≤ j := (List.mem_range'_1.mp hj).1
    have hfalse := hspec.2.2 j h1 hlt
    rw [(isMismatchAt_iff probe cb j).mpr hm] at hfalse
    cases hfalse

/-- The window the claim's "max depth 10" reading describes: depths 1
through `min 10 current_block` inclusive. -/
def claimedReorgDepths (current_block : ℕ) : List ℕ :=
  List.range' 1 (min max_check_depth current_block)

def cex6Probe : NodeProbe :=
  { localHash := fun _ => some "0xaa"
    refHash := fun h => if h = 1 then some "0xbb" else some "0xaa"
    blockKeys := none
    blockFields := none }

/-- C6 counterexample: at height 11 with max depth 10 the scan loop is
`range(1, min(10, 11))`, i.e. depths 1..9 only.  A mismatch sitting
exactly at distance 10 (height 1) is inside the claimed "max depth 10"
window but the scan reports no reorg at all. -/
theorem C6_counterexample :
    detect_reorganizations cex6Probe 11 = (false, 0)
    ∧ 10 ∈ claimedReorgDepths 11
    ∧ MismatchAt cex6Probe 11 10 := by
  refine ⟨by decide, by decide, ?_⟩
  exact ⟨"0xaa", "0xbb", rfl, rfl, by decide⟩

/-- C6 amended: over the window the scan actually visits — depths 1
through `min(10, h) − 1`, i.e. an effective max depth of 9 — the claim
holds: reorg_detected is true iff some visited height has both hashes
fetched and unequal, reorg_depth is the distance of the first such
height (with nothing closer mismatching), and an all-match window yields
`(false, 0)`. -/
theorem C6_amended_reorg_scan (probe : NodeProbe) (cb : ℕ) :
    ((detect_reorganizations probe cb).1 = true ↔
        ∃ i ∈ reorgScanDepths cb, MismatchAt probe cb i)
    ∧ (∀ d, detect_reorganizations probe cb = (true, d) →
        d ∈ reorgScanDepths cb ∧ MismatchAt probe cb d
        ∧ ∀ j ∈ reorgScanDepths cb, j < d → ¬ MismatchAt probe cb j)
    ∧ ((∀ i ∈ reorgScanDepths cb, ¬ MismatchAt probe cb i) →
        detect_reorganizations probe cb = (false, 0)) :=
  ⟨detect_fst_true_iff probe cb,
    fun d h => detect_first_mismatch probe cb d h,
    detect_of_no_mismatch probe cb⟩

def allMatchProbe : NodeProbe :=
  { localHash := fun _ => some "0xaa"
    refHash := fun _ => some "0xaa"
    blockKeys := none
    blockFields := none }

/-- Witness for the amended C6: hashes agreeing at every height give
`(false, 0)` at height 20. -/
theorem C6_amended_reorg_scan_witness :
    detect_reorganizations allMatchProbe 20 = (false, 0) :=
  (C6_amended_reorg_scan allMatchProbe 20).2.2
    (by
      intro i _ hm
      obtain ⟨lh, rh, hl, hr, hne⟩ := hm
      simp only [allMatchProbe, Option.some.injEq] at hl hr
      exact hne (by rw [← hl, ← hr]))

/-- C10: a reorg is reported only from a height where both the local and
the reference hash were actually obtained and differ; heights where
either lookup failed are skipped, so unavailable data alone never
produces `reorg_detected = true`. -/
theorem C10_unavailable_data_skipped (probe : NodeProbe) (cb : ℕ) :
    ((detect_reorganizations probe cb).1 = true →
      ∃ i ∈ reorgScanDepths cb, ∃ lh rh,
        probe.localHash (cb - i) = some lh
        ∧ probe.refHash (cb - i) = some rh ∧ lh ≠ rh)
    ∧ ((∀ i ∈ reorgScanDepths cb,
          probe.localHash (cb - i) = none ∨ probe.refHash (cb - i) = none) →
        detect_reorganizations probe cb = (false, 0)) := by
  constructor
  · intro h
    obtain ⟨i, hi, hm⟩ := (detect_fst_true_iff probe cb).mp h
    exact ⟨i, hi, hm⟩
  · intro h
    apply detect_of_no_mismatch
    intro i hi hm
    obtain ⟨lh, rh, hl, hr, _⟩ := hm
    rcases h i hi with hnone | hnone
    · rw [hnone] at hl; cases hl
    · rw [hnone] at hr; cases hr

/-- Witness for C10: a node whose local hash lookups all fail reports no
reorg even though the reference hashes are all present. -/
theorem C10_unavailable_data_skipped_witness :
    detect_reorganizations
      (NodeProbe.mk (fun _ => none) (fun _ => some "0xaa") none none) 30
      = (false, 0) :=
  (C10_unavailable_data_skipped
    (NodeProbe.mk (fun _ => none) (fun _ => some "0xaa") none none) 30).2
    (fun _ _ => Or.inl rfl)

/-! ## Node Status Collector: the sync-progress computation (C5) -/

/-- Parse outcome of the `eth_syncing` response: Python `False` (fully
synced), a sync object with hex-parsed current/highest blocks, or a body
that failed to parse. -/
inductive RpcSyncResult where
  | notSyncing
  | syncing (currentBlock highestBlock : ℕ)
  | parseFailure
  deriving Repr, DecidableEq

/-- Sync fields `(sync_progress, current_block, highest_block)` set by
`_verify_single_node` (`scripts/monitoring/blockchain_sync_verification.py`).
On `sync_data == False` the source first assigns `sync_progress = 100.0`
and then evaluates `data.get('result', {}).get('currentBlock', '0x0')`;
`.get` on the boolean `False` raises `AttributeError`, so the inner
`except Exception` handler runs and zeroes progress and both blocks —
that handler's outcome is this branch's value.  A parse failure lands in
the same handler.  While syncing, progress is `current/highest*100` when
`highest_block > 0` (no cap) and `100.0` otherwise. -/
def basicSyncFields (r : RpcSyncResult) : ℚ × ℕ × ℕ :=
  match r with
  | .notSyncing => (0, 0, 0)
  | .syncing c h => (if 0 < h then (c : ℚ) / (h : ℚ) * 100 else 100, c, h)
  | .parseFailure => (0, 0, 0)

/-- The `(current_block, highest_block)` pair produced by
`get_rpc_sync_data` (`bin/blockchain_sync_verification_comprehensive.py`):
a fully synced node reports `eth_blockNumber` (the `blockNumber` oracle)
for both fields; a syncing node reports the sync object's pair; a failed
fetch leaves `get_node_sync_status`'s zero defaults. -/
def rpcSyncBlocks (r : RpcSyncResult) (blockNumber : ℕ) : ℕ × ℕ :=
  match r with
  | .notSyncing => (blockNumber, blockNumber)
  | .syncing c h => (c, h)
  | .parseFailure => (0, 0)

/-- `get_node_sync_status`: `sync_progress = min(100.0,
(current_block / highest_block) * 100)` guarded by
`if status.highest_block > 0`, else the 0.0 initial value remains. -/
def comprehensiveSyncProgress (current highest : ℕ) : ℚ :=
  if 0 < highest then min 100 ((current : ℚ) / (highest : ℚ) * 100) else 0

/-- C5 counterexample: the basic collector answers a syncing node whose
`highest_block` is 0 — the no-data case — with `sync_progress = 100.0`,
i.e. it is reported exactly as fully synced, where the claim demands 0. -/
theorem C5_counterexample :
    (basicSyncFields (.syncing 5 0)).1 = 100 ∧ (100 : ℚ) ≠ 0 := by
  constructor
  · rfl
  · norm_num

/-- C5 amended: the comprehensive collector computes
`min(100, current/highest*100)` when `highest_block > 0` and keeps 0 when
`highest_block = 0` (always within [0, 100]); a node reporting "not
syncing" gets `highest_block := current head`, hence progress 100 exactly
when the reported head is positive and 0 when the head is 0.  The basic
collector instead returns 100 when syncing with `highest_block = 0`, an
uncapped `current/highest*100` otherwise, and 0 (via its exception
handler) when the node reports it is not syncing. -/
theorem C5_amended_sync_progress (c h b : ℕ) :
    comprehensiveSyncProgress c 0 = 0
    ∧ (0 ≤ comprehensiveSyncProgress c h
        ∧ comprehensiveSyncProgress c h ≤ 100)
    ∧ (0 < b →
        comprehensiveSyncProgress (rpcSyncBlocks .notSyncing b).1
          (rpcSyncBlocks .notSyncing b).2 = 100)
    ∧ comprehensiveSyncProgress (rpcSyncBlocks .notSyncing 0).1
        (rpcSyncBlocks .notSyncing 0).2 = 0
    ∧ (basicSyncFields (.syncing c 0)).1 = 100
    ∧ (basicSyncFields .notSyncing).1 = 0
    ∧ (0 < h → (basicSyncFields (.syncing c h)).1 = (c : ℚ) / (h : ℚ) * 100) := by
  refine ⟨?_, ⟨?_, ?_⟩, ?_, ?_, rfl, rfl, ?_⟩
  · unfold comprehensiveSyncProgress
    rw [if_neg (lt_irrefl 0)]
  · unfold comprehensiveSyncProgress
    by_cases hh : 0 < h
    · rw [if_pos hh]
      exact le_min (by norm_num) (by positivity)
    · rw [if_neg hh]
  · unfold comprehensiveSyncProgress
    by_cases hh : 0 < h
    · rw [if_pos hh]
      exact min_le_left _ _
    · rw [if_neg hh]
      norm_num
  · intro hb
    show comprehensiveSyncProgress b b = 100
    unfold comprehensiveSyncProgress
    rw [if_pos hb]
    have hb' : (b : ℚ) ≠ 0 := Nat.cast_ne_zero.mpr (Nat.pos_iff_ne_zero.mp hb)
    rw [div_self hb']
    norm_num
  · show comprehensiveSyncProgress 0 0 = 0
    unfold comprehensiveSyncProgress
    rw [if_neg (lt_irrefl 0)]
  · intro hh
    show (if 0 < h then (c : ℚ) / (h : ℚ) * 100 else 100) = _
    rw [if_pos hh]

/-- Witness for the amended C5: a fully synced node at head 7 reports
progress 100 in the comprehensive collector. -/
theorem C5_amended_sync_progress_witness :
    (0 < 7)
    ∧ comprehensiveSyncProgress (rpcSyncBlocks .notSyncing 7).1
        (rpcSyncBlocks .notSyncing 7).2 = 100 :=
  ⟨by norm_num, (C5_amended_sync_progress 5 0 7).2.2.1 (by norm_num)⟩

end NodesMonitor
